import Mathlib

/-!
Verification of the operation core of the term-squid terminology server.

The definitions below are a shallow embedding of the Rust sources under
`crates/backend/src`: the FHIR `Parameters` envelope and its accessors
(`api/parameters.rs`), the error type and its HTTP rendering (`error.rs`),
the store capability (`store/traits.rs`, with `check_subsumption` of
`store/postgres.rs` modelled over an explicit closure relation), and the
operation handlers (`api/operations/*.rs`).

Modelling conventions:
  * `Uuid` is modelled as `Nat`; `chrono` timestamps as `Nat` tick counts
    (no operation reads them).
  * JSON documents (`serde_json::Value`) are modelled by the inductive
    `Json`; JSON numbers by `Int` (no operation reads a numeric field of a
    stored document).
  * Fallible store calls return `Except AppError`; `async` is erased since
    every operation awaits each store call in program order.
  * The two effectful values produced inside `perform_expand`
    (`Uuid::new_v4()` and `Utc::now()`) are threaded as explicit `String`
    arguments `identifier` and `timestamp`.
-/

namespace TermSquid

/-- `AppError` of `crates/backend/src/error.rs`.  The payload of `database`
is the `Display` rendering of the wrapped `sqlx::Error` (the raw storage
engine detail); the payload of `internal` is the wrapped `anyhow::Error`
rendering. -/
inductive AppError where
  | database (detail : String)
  | internal (detail : String)
  | notFound (msg : String)
  | badRequest (msg : String)
deriving DecidableEq

/-- `serde_json::Value`.  An object is an association list read through
first-key lookup; numbers are modelled as `Int` (no operation of the core
reads a numeric field of a stored document). -/
inductive Json where
  | null
  | bool (b : Bool)
  | num (n : Int)
  | str (s : String)
  | arr (elems : List Json)
  | obj (fields : List (String × Json))

/-- `Value::get(key)` for objects (first matching key), `None` otherwise. -/
def Json.get (j : Json) (key : String) : Option Json :=
  match j with
  | .obj fields => fields.lookup key
  | _ => none

/-- `Value::as_str`. -/
def Json.asStr : Json → Option String
  | .str s => some s
  | _ => none

/-- `Value::as_array`. -/
def Json.asArray : Json → Option (List Json)
  | .arr elems => some elems
  | _ => none

/-- `Map::insert` on an object: replace the value under an existing key,
append the pair otherwise; leave any non-object unchanged (mirrors the
`if let Some(obj) = result.as_object_mut()` guard of `perform_expand`). -/
def Json.insertKey (j : Json) (key : String) (v : Json) : Json :=
  match j with
  | .obj fields => .obj (go fields)
  | other => other
where
  go : List (String × Json) → List (String × Json)
    | [] => [(key, v)]
    | (k, w) :: rest => if k = key then (k, v) :: rest else (k, w) :: go rest

/-- `Coding` of `api/parameters.rs`. -/
structure Coding where
  system : Option String
  version : Option String
  code : Option String
  display : Option String
deriving DecidableEq

/-- `Coding::new(system, code)`. -/
def Coding.new (system code : String) : Coding :=
  ⟨some system, none, some code, none⟩

/-- `Coding::with_display`. -/
def Coding.with_display (c : Coding) (display : String) : Coding :=
  { c with display := some display }

/-- `CodeableConcept` of `api/parameters.rs`. -/
structure CodeableConcept where
  coding : Option (List Coding)
  text : Option String
deriving DecidableEq

/-- `ParameterValue` of `api/parameters.rs`: the kind-tagged one-of value
slot of a parameter.  The `f64` payload of `ValueDecimal` is modelled as
`Float`; no accessor or operation inspects it. -/
inductive ParameterValue where
  | valueString (s : String)
  | valueBoolean (b : Bool)
  | valueInteger (i : Int)
  | valueDecimal (d : Float)
  | valueCode (c : String)
  | valueUri (u : String)
  | valueUrl (u : String)
  | valueCanonical (c : String)
  | valueCoding (c : Coding)
  | valueCodeableConcept (c : CodeableConcept)

/-- `Parameter` of `api/parameters.rs`: a name, an optional kind-tagged
value, and optional nested sub-parameters. -/
inductive Parameter where
  | mk (name : String) (value : Option ParameterValue)
       (part : Option (List Parameter))

def Parameter.name : Parameter → String
  | .mk n _ _ => n

def Parameter.value : Parameter → Option ParameterValue
  | .mk _ v _ => v

def Parameter.part : Parameter → Option (List Parameter)
  | .mk _ _ p => p

/-- `Parameter::string`. -/
def Parameter.string (name value : String) : Parameter :=
  .mk name (some (.valueString value)) none

/-- `Parameter::boolean`. -/
def Parameter.boolean (name : String) (value : Bool) : Parameter :=
  .mk name (some (.valueBoolean value)) none

/-- `Parameter::code`. -/
def Parameter.code (name value : String) : Parameter :=
  .mk name (some (.valueCode value)) none

/-- `Parameter::coding`. -/
def Parameter.coding (name : String) (c : Coding) : Parameter :=
  .mk name (some (.valueCoding c)) none

/-- `Parameter::part` (a grouping node: no value, nested children). -/
def Parameter.group (name : String) (parts : List Parameter) : Parameter :=
  .mk name none (some parts)

/-- `Parameters` of `api/parameters.rs`. -/
structure Parameters where
  resource_type : String
  parameter : Option (List Parameter)

/-- `Parameters::with_parameters`. -/
def Parameters.with_parameters (params : List Parameter) : Parameters :=
  ⟨"Parameters", some params⟩

/-- `Parameters::get_parameter`: first parameter bearing the name. -/
def Parameters.get_parameter (ps : Parameters) (name : String) :
    Option Parameter :=
  match ps.parameter with
  | none => none
  | some l => l.find? (fun p => p.name = name)

/-- `Parameters::get_string`. -/
def Parameters.get_string (ps : Parameters) (name : String) : Option String :=
  match ps.get_parameter name with
  | some p =>
    match p.value with
    | some (.valueString s) => some s
    | _ => none
  | none => none

/-- `Parameters::get_boolean`. -/
def Parameters.get_boolean (ps : Parameters) (name : String) : Option Bool :=
  match ps.get_parameter name with
  | some p =>
    match p.value with
    | some (.valueBoolean b) => some b
    | _ => none
  | none => none

/-- `Parameters::get_code`. -/
def Parameters.get_code (ps : Parameters) (name : String) : Option String :=
  match ps.get_parameter name with
  | some p =>
    match p.value with
    | some (.valueCode c) => some c
    | _ => none
  | none => none

/-- `Parameters::get_uri`. -/
def Parameters.get_uri (ps : Parameters) (name : String) : Option String :=
  match ps.get_parameter name with
  | some p =>
    match p.value with
    | some (.valueUri u) => some u
    | _ => none
  | none => none

/-- `CodeSystem` of `models/mod.rs` (`Uuid` as `Nat`, timestamps as `Nat`). -/
structure CodeSystem where
  id : Nat
  url : String
  version : Option String
  status : String
  name : Option String
  title : Option String
  fhir_version : Option String
  content : Json
  created_at : Nat
  updated_at : Nat

/-- `ValueSet` of `models/mod.rs`. -/
structure ValueSet where
  id : Nat
  url : String
  version : Option String
  status : String
  name : Option String
  title : Option String
  fhir_version : Option String
  content : Json
  created_at : Nat
  updated_at : Nat

/-- `ConceptMap` of `models/mod.rs`. -/
structure ConceptMap where
  id : Nat
  url : String
  version : Option String
  status : String
  name : Option String
  title : Option String
  source_uri : Option String
  target_uri : Option String
  fhir_version : Option String
  content : Json
  created_at : Nat
  updated_at : Nat

/-- `Concept` of `models/mod.rs`. -/
structure Concept where
  id : Nat
  code_system_id : Nat
  code : String
  display : Option String
  definition : Option String
  properties : Option Json
  created_at : Nat

/-- The `TerminologyStore` capability of `store/traits.rs`, restricted to
the methods the operations call.  Each method may fail with an `AppError`
(the `?` propagation sites in the handlers). -/
structure Store where
  getCodeSystem : String → Option String → Except AppError (Option CodeSystem)
  getCodeSystemById : Nat → Except AppError (Option CodeSystem)
  getConcept : Nat → String → Except AppError (Option Concept)
  checkSubsumption : Nat → String → String → Except AppError (Option Bool)
  getValueSet : String → Option String → Except AppError (Option ValueSet)
  getValueSetById : Nat → Except AppError (Option ValueSet)
  getConceptMap : String → Option String → Except AppError (Option ConceptMap)
  getConceptMapById : Nat → Except AppError (Option ConceptMap)
  getValueSetExpansion : Nat → Except AppError (Option (List Json))

/-- `check_subsumption` of `store/postgres.rs` over an explicit closure
relation (`closure cs a b` = the `closure_table` holds a row with ancestor
`a` and descendant `b` for CodeSystem `cs`): first query `(code_a, code_b)`,
then `(code_b, code_a)`, else no relationship. -/
def check_subsumption_pg (closure : Nat → String → String → Bool)
    (code_system_id : Nat) (code_a code_b : String) : Option Bool :=
  if closure code_system_id code_a code_b then some true
  else if closure code_system_id code_b code_a then some false
  else none

/-! ## Validate-Code (`api/operations/validate.rs`) -/

/-- `perform_validate_code` (validate.rs lines 207-260). -/
def perform_validate_code (store : Store) (system code : String)
    (version display : Option String) : Except AppError Parameters := do
  let code_system ← store.getCodeSystem system version
  match code_system with
  | none =>
    return Parameters.with_parameters [
      Parameter.boolean "result" false,
      Parameter.string "message" ("CodeSystem '" ++ system ++ "' not found")]
  | some code_system =>
    let concept ← store.getConcept code_system.id code
    match concept with
    | some concept =>
      let result_params := [Parameter.boolean "result" true]
      let result_params := result_params ++
        (match display, concept.display with
         | some expected_display, some actual_display =>
           if actual_display ≠ expected_display then
             [Parameter.string "message"
               ("Display value '" ++ expected_display ++
                "' does not match expected '" ++ actual_display ++ "'")]
           else []
         | _, _ => [])
      let result_params := result_params ++
        [Parameter.string "display" (concept.display.getD "")]
      return Parameters.with_parameters result_params
    | none =>
      return Parameters.with_parameters [
        Parameter.boolean "result" false,
        Parameter.string "message"
          ("Code '" ++ code ++ "' not found in system '" ++ system ++ "'")]

/-- `perform_validate_code_valueset` (validate.rs lines 262-289).  The
`value_set_url` argument is unused by the source (`_value_set_url`). -/
def perform_validate_code_valueset (store : Store)
    (_value_set_url system code : String) (display : Option String) :
    Except AppError Parameters := do
  let code_validation ← perform_validate_code store system code none display
  let code_valid := (code_validation.get_boolean "result").getD false
  if !code_valid then
    return code_validation
  return Parameters.with_parameters [
    Parameter.boolean "result" true,
    Parameter.string "message"
      "Code validation passed (ValueSet expansion not yet implemented)"]

/-! ## Subsumes (`api/operations/subsumes.rs`) -/

/-- `perform_subsumes` (subsumes.rs lines 116-168). -/
def perform_subsumes (store : Store) (system code_a code_b : String)
    (version : Option String) : Except AppError Parameters := do
  let code_system ← store.getCodeSystem system version
  match code_system with
  | none => throw (.notFound ("CodeSystem '" ++ system ++ "' not found"))
  | some code_system =>
    let concept_a ← store.getConcept code_system.id code_a
    let concept_b ← store.getConcept code_system.id code_b
    if concept_a.isNone then
      throw (.notFound
        ("Code '" ++ code_a ++ "' not found in system '" ++ system ++ "'"))
    else if concept_b.isNone then
      throw (.notFound
        ("Code '" ++ code_b ++ "' not found in system '" ++ system ++ "'"))
    else if code_a = code_b then
      return Parameters.with_parameters [Parameter.code "outcome" "equivalent"]
    else do
      let outcome ← store.checkSubsumption code_system.id code_a code_b
      let outcome_code :=
        match outcome with
        | some true => "subsumes"
        | some false => "subsumed-by"
        | none => "not-subsumed"
      return Parameters.with_parameters [Parameter.code "outcome" outcome_code]

/-! ## Lookup (`api/operations/lookup.rs`) -/

/-- `serde_json::Value::to_string` on the modelled values: the compact
JSON printer (used by `perform_lookup` for property values). -/
def Json.render : Json → String
  | .null => "null"
  | .bool true => "true"
  | .bool false => "false"
  | .num n => toString n
  | .str s => "\"" ++ s ++ "\""
  | .arr elems =>
    "[" ++ String.intercalate ","
      (elems.attach.map (fun x => Json.render x.1)) ++ "]"
  | .obj fields =>
    "\x7b" ++ String.intercalate ","
      (fields.attach.map
        (fun x => "\"" ++ x.1.1 ++ "\":" ++ Json.render x.1.2)) ++ "\x7d"
decreasing_by
  · have h1 := List.sizeOf_lt_of_mem x.2
    simp only [Json.arr.sizeOf_spec]
    omega
  · have h1 := List.sizeOf_lt_of_mem x.2
    obtain ⟨⟨a, b⟩, hm⟩ := x
    simp only [Prod.mk.sizeOf_spec] at h1
    simp only [Json.obj.sizeOf_spec]
    omega

/-- The `property` grouping parameters of `perform_lookup`: one per
key/value pair of the concept's `properties` object, in iteration order. -/
def lookup_property_params : Option Json → List Parameter
  | some (.obj fields) =>
    fields.map (fun kv =>
      Parameter.group "property" [
        Parameter.code "code" kv.1,
        Parameter.string "value" (Json.render kv.2)])
  | _ => []

/-- `perform_lookup` (lookup.rs lines 92-145). -/
def perform_lookup (store : Store) (system code : String)
    (version : Option String) : Except AppError Parameters := do
  let code_system ← store.getCodeSystem system version
  match code_system with
  | none => throw (.notFound ("CodeSystem '" ++ system ++ "' not found"))
  | some code_system =>
    let concept ← store.getConcept code_system.id code
    match concept with
    | none =>
      throw (.notFound
        ("Code '" ++ code ++ "' not found in system '" ++ system ++ "'"))
    | some concept =>
      let result_params := [
        Parameter.string "name" (code_system.name.getD ""),
        Parameter.string "display" (concept.display.getD "")]
      let result_params := result_params ++
        (match concept.definition with
         | some definition =>
           [Parameter.group "designation" [
             Parameter.code "use" "definition",
             Parameter.string "value" definition]]
         | none => [])
      let result_params := result_params ++ lookup_property_params concept.properties
      return Parameters.with_parameters result_params

/-- `lookup_post` (lookup.rs lines 36-51): argument resolution of the POST
shape, then delegation to `perform_lookup`. -/
def lookup_post (store : Store) (params : Parameters) :
    Except AppError Parameters := do
  match (params.get_string "system").or (params.get_uri "system") with
  | none => throw (.badRequest "system parameter required")
  | some system =>
    match (params.get_string "code").or (params.get_code "code") with
    | none => throw (.badRequest "code parameter required")
    | some code =>
      perform_lookup store system code (params.get_string "version")

/-! ## Translate (`api/operations/translate.rs`) -/

/-- The body of the target loop of `perform_translate` (translate.rs lines
177-215) after `target_system_str` has been computed: extract code, display
and equivalence, apply the target-system filter, and emit a `match`
grouping parameter. -/
def process_target (target_system_str : String) (target_system : Option String)
    (target : Json) : List Parameter :=
  let target_code := (target.get "code").bind Json.asStr
  let target_display := (target.get "display").bind Json.asStr
  let equivalence := ((target.get "equivalence").bind Json.asStr).getD "equivalent"
  match target_code with
  | none => []
  | some target_code =>
    let keep := match target_system with
      | some ts => target_system_str == ts
      | none => true
    if keep then
      let coding := Coding.new target_system_str target_code
      let coding := match target_display with
        | some display => coding.with_display display
        | none => coding
      [Parameter.group "match" [
        Parameter.code "equivalence" equivalence,
        Parameter.coding "concept" coding]]
    else []

/-- The target loop of `perform_translate` with the effective target system
chosen from the reverse flag (`if reverse { group_source } else
{ group_target }`, translate.rs lines 188-192). -/
def process_target_mode (reverse : Bool) (group_source group_target : Option String)
    (target_system : Option String) (target : Json) : List Parameter :=
  process_target (if reverse then group_source.getD "" else group_target.getD "")
    target_system target

/-- The element walk of one matching group of `perform_translate`
(translate.rs lines 168-219), with the effective target system fixed to
`target_system_str`. -/
def process_group_elements (target_system_str : String)
    (target_system : Option String) (source_code : String) (group : Json) :
    List Parameter :=
  match (group.get "element").bind Json.asArray with
  | some elements =>
    elements.flatMap (fun element =>
      if (element.get "code").bind Json.asStr = some source_code then
        match (element.get "target").bind Json.asArray with
        | some targets => targets.flatMap (process_target target_system_str target_system)
        | none => []
      else [])
  | none => []

/-- One iteration of the group loop of `perform_translate` (translate.rs
lines 155-221): test the group against the source system (source field
forward, target field in reverse), then walk its elements. -/
def process_group (reverse : Bool) (source_system source_code : String)
    (target_system : Option String) (group : Json) : List Parameter :=
  let group_source := (group.get "source").bind Json.asStr
  let group_target := (group.get "target").bind Json.asStr
  let matches_source :=
    if reverse then group_target == some source_system
    else group_source == some source_system
  if matches_source then
    match (group.get "element").bind Json.asArray with
    | some elements =>
      elements.flatMap (fun element =>
        if (element.get "code").bind Json.asStr = some source_code then
          match (element.get "target").bind Json.asArray with
          | some targets =>
            targets.flatMap (process_target_mode reverse group_source group_target
              target_system)
          | none => []
        else [])
    | none => []
  else []

/-- The full group walk of `perform_translate` over a ConceptMap document
(translate.rs lines 152-223). -/
def translate_matches (content : Json) (source_system source_code : String)
    (target_system : Option String) (reverse : Bool) : List Parameter :=
  match (content.get "group").bind Json.asArray with
  | some groups =>
    groups.flatMap (process_group reverse source_system source_code target_system)
  | none => []

/-- `perform_translate` (translate.rs lines 119-239). -/
def perform_translate (store : Store) (concept_map_url : Option String)
    (source_system source_code : String) (target_system : Option String)
    (reverse : Bool) : Except AppError Parameters := do
  match concept_map_url with
  | none =>
    return Parameters.with_parameters [
      Parameter.boolean "result" false,
      Parameter.string "message"
        "ConceptMap URL parameter is required (search not yet implemented)"]
  | some url =>
    let concept_map ← store.getConceptMap url none
    match concept_map with
    | none => throw (.notFound ("ConceptMap '" ++ url ++ "' not found"))
    | some concept_map =>
      let matches_found :=
        translate_matches concept_map.content source_system source_code
          target_system reverse
      let result_params :=
        if matches_found.isEmpty then
          [Parameter.boolean "result" false,
           Parameter.string "message"
             ("No translation found for code '" ++ source_code ++
              "' in system '" ++ source_system ++ "'")]
        else
          Parameter.boolean "result" true :: matches_found
      return Parameters.with_parameters result_params

/-- `translate_post` (translate.rs lines 46-63): argument resolution of the
POST shape, then delegation to `perform_translate`. -/
def translate_post (store : Store) (params : Parameters) :
    Except AppError Parameters := do
  match (params.get_string "code").or (params.get_code "code") with
  | none => throw (.badRequest "code parameter required")
  | some code =>
    match (params.get_string "system").or (params.get_uri "system") with
    | none => throw (.badRequest "system parameter required")
    | some system =>
      perform_translate store ((params.get_string "url").or (params.get_uri "url"))
        system code (params.get_string "target")
        ((params.get_boolean "reverse").getD false)

/-! ## Expand (`api/operations/expand.rs`) -/

/-- `ExpandParams` of expand.rs (query parameters; `i64` as `Int`). -/
structure ExpandParams where
  url : Option String
  filter : Option String
  offset : Option Int
  count : Option Int

/-- The `as usize` cast of an `i64` value on a 64-bit target: the bit
pattern reinterpreted, i.e. reduction modulo `2 ^ 64`. -/
def i64_as_usize (i : Int) : Nat :=
  (i % (2 ^ 64)).toNat

/-- `str::contains` with a string pattern: substring containment. -/
def str_contains (hay needle : String) : Bool :=
  decide (needle.toList <:+: hay.toList)

/-- The `retain` filter step of `perform_expand` (expand.rs lines 108-119):
keep entries whose display (or, failing that, code) contains the filter
text case-insensitively. -/
def apply_expansion_filter (filter : Option String) (entries : List Json) :
    List Json :=
  match filter with
  | some filter_text =>
    let filter_lower := filter_text.toLower
    entries.filter (fun entry =>
      match (entry.get "display").bind Json.asStr with
      | some display => str_contains display.toLower filter_lower
      | none =>
        match (entry.get "code").bind Json.asStr with
        | some code => str_contains code.toLower filter_lower
        | none => false)
  | none => entries

/-- The `expansion` JSON object `perform_expand` splices into the ValueSet
document (the `json!` literal of expand.rs lines 134-141). -/
def expansion_object (identifier timestamp : String) (total offset : Nat)
    (contains : List Json) : Json :=
  Json.obj [
    ("identifier", .str ("urn:uuid:" ++ identifier)),
    ("timestamp", .str timestamp),
    ("total", .num (total : Int)),
    ("offset", .num (offset : Int)),
    ("parameter", .arr []),
    ("contains", .arr contains)]

/-- `perform_expand` (expand.rs lines 90-150).  The generated
`Uuid::new_v4()` and `Utc::now().to_rfc3339()` values are threaded as the
explicit arguments `identifier` and `timestamp`. -/
def perform_expand (store : Store) (url : String) (params : ExpandParams)
    (identifier timestamp : String) : Except AppError Json := do
  let value_set ← store.getValueSet url none
  match value_set with
  | none => throw (.notFound ("ValueSet '" ++ url ++ "' not found"))
  | some value_set =>
    let expansion_entries ← store.getValueSetExpansion value_set.id
    let expansion_entries := expansion_entries.getD []
    let expansion_entries := apply_expansion_filter params.filter expansion_entries
    let total := expansion_entries.length
    let offset := i64_as_usize (params.offset.getD 0)
    let count := i64_as_usize (params.count.getD 100)
    let paginated_entries := (expansion_entries.drop offset).take count
    let expansion := expansion_object identifier timestamp total offset paginated_entries
    return value_set.content.insertKey "expansion" expansion

/-- `expand_get` (expand.rs lines 23-33). -/
def expand_get (store : Store) (params : ExpandParams)
    (identifier timestamp : String) : Except AppError Json := do
  match params.url with
  | none => throw (.badRequest "url parameter required")
  | some url => perform_expand store url params identifier timestamp

/-- `expand_post` (expand.rs lines 36-53): the POST shape resolves only
`url` and `filter` from the body and fixes `offset` and `count` to `None`. -/
def expand_post (store : Store) (params : Parameters)
    (identifier timestamp : String) : Except AppError Json := do
  match (params.get_string "url").or (params.get_uri "url") with
  | none => throw (.badRequest "url parameter required")
  | some url =>
    perform_expand store url
      ⟨some url, params.get_string "filter", none, none⟩ identifier timestamp

/-- `expand_instance_get` (expand.rs lines 56-67). -/
def expand_instance_get (store : Store) (id : Nat) (params : ExpandParams)
    (identifier timestamp : String) : Except AppError Json := do
  let value_set ← store.getValueSetById id
  match value_set with
  | none => throw (.notFound ("ValueSet " ++ toString id ++ " not found"))
  | some value_set => perform_expand store value_set.url params identifier timestamp

/-- `expand_instance_post` (expand.rs lines 70-88): like `expand_post`,
`offset` and `count` are fixed to `None`. -/
def expand_instance_post (store : Store) (id : Nat) (params : Parameters)
    (identifier timestamp : String) : Except AppError Json := do
  let value_set ← store.getValueSetById id
  match value_set with
  | none => throw (.notFound ("ValueSet " ++ toString id ++ " not found"))
  | some value_set =>
    perform_expand store value_set.url
      ⟨some value_set.url, params.get_string "filter", none, none⟩
      identifier timestamp

/-! ## Validate-Code entry shapes (`api/operations/validate.rs`) -/

/-- `ValidateCodeParams` of validate.rs (query parameters). -/
structure ValidateCodeParams where
  url : Option String
  system : Option String
  code : Option String
  version : Option String
  display : Option String

/-- `validate_code_cs_get` (validate.rs lines 23-43). -/
def validate_code_cs_get (store : Store) (params : ValidateCodeParams) :
    Except AppError Parameters := do
  match params.system.or params.url with
  | none => throw (.badRequest "system or url parameter required")
  | some system =>
    match params.code with
    | none => throw (.badRequest "code parameter required")
    | some code =>
      perform_validate_code store system code params.version params.display

/-- `validate_code_cs_post` (validate.rs lines 46-63). -/
def validate_code_cs_post (store : Store) (params : Parameters) :
    Except AppError Parameters := do
  match ((params.get_string "system").or (params.get_string "url")).or
      (params.get_uri "url") with
  | none => throw (.badRequest "system or url parameter required")
  | some system =>
    match (params.get_string "code").or (params.get_code "code") with
    | none => throw (.badRequest "code parameter required")
    | some code =>
      perform_validate_code store system code (params.get_string "version")
        (params.get_string "display")

/-- `validate_code_vs_get` (validate.rs lines 111-133). -/
def validate_code_vs_get (store : Store) (params : ValidateCodeParams) :
    Except AppError Parameters := do
  match params.url with
  | none => throw (.badRequest "url parameter required for ValueSet")
  | some value_set_url =>
    match params.code with
    | none => throw (.badRequest "code parameter required")
    | some code =>
      match params.system with
      | none =>
        throw (.badRequest "system parameter required for ValueSet validation")
      | some system =>
        perform_validate_code_valueset store value_set_url system code
          params.display

/-- `validate_code_vs_post` (validate.rs lines 136-154). -/
def validate_code_vs_post (store : Store) (params : Parameters) :
    Except AppError Parameters := do
  match (params.get_string "url").or (params.get_uri "url") with
  | none => throw (.badRequest "url parameter required for ValueSet")
  | some value_set_url =>
    match (params.get_string "code").or (params.get_code "code") with
    | none => throw (.badRequest "code parameter required")
    | some code =>
      match params.get_string "system" with
      | none =>
        throw (.badRequest "system parameter required for ValueSet validation")
      | some system =>
        perform_validate_code_valueset store value_set_url system code
          (params.get_string "display")

/-! ## Error rendering (`error.rs`) -/

/-- The observable parts of the HTTP response `AppError::into_response`
builds: the status code and the two fields of the JSON body. -/
structure ErrorResponse where
  status : Nat
  error : String
  message : String
deriving DecidableEq

/-- The `thiserror` `Display` rendering of `AppError` (`#[error(...)]`
attributes of error.rs); this is what `self.to_string()` yields. -/
def AppError.display : AppError → String
  | .database detail => "Database error: " ++ detail
  | .internal detail => "Internal server error: " ++ detail
  | .notFound msg => "Not found: " ++ msg
  | .badRequest msg => "Bad request: " ++ msg

/-- `AppError::into_response` (error.rs lines 23-45): pick status and the
stable `error` tag by kind, then serialize the body
`{error: error_message, message: self.to_string()}`. -/
def AppError.into_response (e : AppError) : ErrorResponse :=
  let pair : Nat × String :=
    match e with
    | .database _ => (500, "Database error")
    | .internal _ => (500, "Internal server error")
    | .notFound _ => (404, "Resource not found")
    | .badRequest _ => (400, "Bad request")
  ⟨pair.1, pair.2, e.display⟩

/-! ## Concrete fixtures used by witnesses and counterexamples -/

/-- A CodeSystem fixture. -/
def cs0 : CodeSystem :=
  ⟨0, "http://x/cs", none, "active", some "XCS", none, none, .obj [], 0, 0⟩

/-- A concept with a stored display. -/
def concept_a : Concept := ⟨1, 0, "a", some "Alpha", none, none, 0⟩

/-- A concept without a display. -/
def concept_b : Concept := ⟨2, 0, "b", none, none, none, 0⟩

/-- A store holding `cs0` with concepts `a` and `b`, whose closure query
fails if it is ever consulted. -/
def st1 : Store where
  getCodeSystem := fun sys _ =>
    if sys = "http://x/cs" then .ok (some cs0) else .ok none
  getCodeSystemById := fun _ => .ok none
  getConcept := fun id code =>
    if id = 0 ∧ code = "a" then .ok (some concept_a)
    else if id = 0 ∧ code = "b" then .ok (some concept_b)
    else .ok none
  checkSubsumption := fun _ _ _ => .error (.database "closure table queried")
  getValueSet := fun _ _ => .ok none
  getValueSetById := fun _ => .ok none
  getConceptMap := fun _ _ => .ok none
  getConceptMapById := fun _ => .ok none
  getValueSetExpansion := fun _ => .ok none

/-- A closure relation holding a row in both directions for the pair
`("a", "b")` (as a cyclic hierarchy would materialize). -/
def closure_both : Nat → String → String → Bool := fun _ a b =>
  (a == "a" && b == "b") || (a == "b" && b == "a")

/-- A closure relation holding only the row `("a", "b")`. -/
def closure_down : Nat → String → String → Bool := fun _ a b =>
  a == "a" && b == "b"

/-- `st1` with the postgres subsumption query over `closure_both`. -/
def st_both : Store :=
  { st1 with checkSubsumption := fun id a b =>
      Except.ok (check_subsumption_pg closure_both id a b) }

/-- `st1` with the postgres subsumption query over `closure_down`. -/
def st_down : Store :=
  { st1 with checkSubsumption := fun id a b =>
      Except.ok (check_subsumption_pg closure_down id a b) }

/-- A posted envelope that carries "system" both as a string-kind value and
as a uri-kind value with different texts, plus a code. -/
def env_dup_system : Parameters := Parameters.with_parameters [
  Parameter.string "system" "sys-string",
  Parameter.mk "system" (some (.valueUri "sys-uri")) none,
  Parameter.string "code" "c"]

/-- A ValueSet fixture whose content is a JSON object. -/
def vs0 : ValueSet :=
  ⟨5, "http://x/vs", none, "active", none, none, none,
    .obj [("resourceType", .str "ValueSet")], 0, 0⟩

/-- Three expansion entries for `vs0`. -/
def exp_entries : List Json := [
  .obj [("code", .str "a"), ("display", .str "Alpha")],
  .obj [("code", .str "b")],
  .obj [("code", .str "c"), ("display", .str "Gamma")]]

/-- `st1` extended with `vs0` and its precomputed expansion. -/
def st_vs : Store :=
  { st1 with
    getValueSet := fun url _ =>
      if url = "http://x/vs" then .ok (some vs0) else .ok none,
    getValueSetById := fun id =>
      if id = 5 then .ok (some vs0) else .ok none,
    getValueSetExpansion := fun id =>
      if id = 5 then .ok (some exp_entries) else .ok none }

/-- A ConceptMap group fixture: source `http://x/src`, target `http://x/tgt`,
one element `c` with one target `t1`. -/
def group_fixture : Json := .obj [
  ("source", .str "http://x/src"),
  ("target", .str "http://x/tgt"),
  ("element", .arr [
    .obj [("code", .str "c"),
          ("target", .arr [
            .obj [("code", .str "t1"), ("display", .str "T One")]])]])]

/-! ## Shared helper lemmas -/

/-- Reduction of `Except` bind on a success value. -/
theorem ok_bind {α β : Type} (a : α) (f : α → Except AppError β) :
    ((Except.ok a : Except AppError α) >>= f) = f a := rfl

/-- `pure` on `Except` is `Except.ok`. -/
theorem pure_eq_ok {α : Type} (a : α) :
    (pure a : Except AppError α) = Except.ok a := rfl

/-- In forward mode the effective target system is the group target. -/
theorem process_target_mode_false (gs gt : Option String)
    (ts : Option String) :
    process_target_mode false gs gt ts = process_target (gt.getD "") ts := rfl

/-- In reverse mode the effective target system is the group source. -/
theorem process_target_mode_true (gs gt : Option String)
    (ts : Option String) :
    process_target_mode true gs gt ts = process_target (gs.getD "") ts := rfl

/-- Looking up the inserted key after `Json.insertKey.go` yields the new
value. -/
theorem lookup_insertKey_go :
    ∀ (key : String) (v : Json) (fields : List (String × Json)),
      (Json.insertKey.go key v fields).lookup key = some v := by
  intro key v fields
  induction fields with
  | nil => simp [Json.insertKey.go, List.lookup]
  | cons kv rest ih =>
    obtain ⟨k, w⟩ := kv
    by_cases hk : k = key
    · subst hk
      simp [Json.insertKey.go, List.lookup]
    · have hkk : (key == k) = false := beq_eq_false_iff_ne.mpr (Ne.symm hk)
      simp [Json.insertKey.go, hk, List.lookup, ih, hkk]

/-- Reading the key just spliced into a JSON object yields the spliced
value. -/
theorem json_get_insertKey (fields : List (String × Json)) (key : String)
    (v : Json) : ((Json.obj fields).insertKey key v).get key = some v := by
  simp [Json.insertKey, Json.get, lookup_insertKey_go]

/-! ## Claim theorems -/

/-- C1: Validate-Code reports a missing CodeSystem and a missing code as a
successful envelope carrying `result=false` plus a string `message` — never
a NotFound error — in both the CodeSystem variant and the ValueSet variant
(which returns the delegated negative envelope verbatim); and Translate
that resolves its ConceptMap but emits no match likewise returns a
successful envelope with `result=false` and a message. -/
theorem validate_translate_negative_outcomes :
    (∀ (st : Store) (system code : String) (version display : Option String),
      st.getCodeSystem system version = .ok none →
      ∃ p, perform_validate_code st system code version display = .ok p ∧
        p.get_boolean "result" = some false ∧
        (p.get_string "message").isSome = true) ∧
    (∀ (st : Store) (system code : String) (version display : Option String)
      (cs : CodeSystem),
      st.getCodeSystem system version = .ok (some cs) →
      st.getConcept cs.id code = .ok none →
      ∃ p, perform_validate_code st system code version display = .ok p ∧
        p.get_boolean "result" = some false ∧
        (p.get_string "message").isSome = true) ∧
    (∀ (st : Store) (vsurl system code : String) (display : Option String)
      (p : Parameters),
      perform_validate_code st system code none display = .ok p →
      p.get_boolean "result" = some false →
      perform_validate_code_valueset st vsurl system code display = .ok p) ∧
    (∀ (st : Store) (url system code : String) (ts : Option String)
      (reverse : Bool) (cm : ConceptMap),
      st.getConceptMap url none = .ok (some cm) →
      translate_matches cm.content system code ts reverse = [] →
      ∃ p, perform_translate st (some url) system code ts reverse = .ok p ∧
        p.get_boolean "result" = some false ∧
        (p.get_string "message").isSome = true) := by
  refine ⟨?_, ?_, ?_, ?_⟩
  · intro st system code version display hcs
    refine ⟨Parameters.with_parameters [Parameter.boolean "result" false,
      Parameter.string "message" ("CodeSystem '" ++ system ++ "' not found")],
      ?_, rfl, rfl⟩
    simp [perform_validate_code, hcs, ok_bind, pure_eq_ok]
  · intro st system code version display cs hcs hc
    refine ⟨Parameters.with_parameters [Parameter.boolean "result" false,
      Parameter.string "message"
        ("Code '" ++ code ++ "' not found in system '" ++ system ++ "'")],
      ?_, rfl, rfl⟩
    simp [perform_validate_code, hcs, hc, ok_bind, pure_eq_ok]
  · intro st vsurl system code display p hv hres
    simp [perform_validate_code_valueset, hv, hres, ok_bind, pure_eq_ok]
  · intro st url system code ts reverse cm hcm htm
    refine ⟨Parameters.with_parameters [Parameter.boolean "result" false,
      Parameter.string "message"
        ("No translation found for code '" ++ code ++ "' in system '" ++
          system ++ "'")], ?_, rfl, rfl⟩
    simp [perform_translate, hcm, htm, ok_bind, pure_eq_ok]

/-- C2 counterexample: at a store where the code is valid, the CodeSystem
variant answers `[result=true, display]` while the ValueSet variant answers
`[result=true, message]` — the envelopes differ, so the ValueSet variant is
not a verbatim delegation in the positive case. -/
theorem valueset_validate_not_verbatim :
    perform_validate_code st1 "http://x/cs" "a" none none =
      .ok (Parameters.with_parameters [Parameter.boolean "result" true,
        Parameter.string "display" "Alpha"]) ∧
    perform_validate_code_valueset st1 "http://x/vs" "http://x/cs" "a" none =
      .ok (Parameters.with_parameters [Parameter.boolean "result" true,
        Parameter.string "message"
          "Code validation passed (ValueSet expansion not yet implemented)"]) ∧
    perform_validate_code_valueset st1 "http://x/vs" "http://x/cs" "a" none ≠
      perform_validate_code st1 "http://x/cs" "a" none none := by
  refine ⟨rfl, rfl, fun h => ?_⟩
  exact absurd (congrArg (fun r => match r with
      | Except.ok q => q.get_string "display"
      | Except.error _ => none) h) (by decide)

/-- C2 (amended): the ValueSet variant delegates to the CodeSystem variant
with the caller-supplied system and code (version fixed to none) and
returns the delegated envelope verbatim in the negative case; in the
positive case it discards the delegated envelope and returns a fixed
envelope of `result=true` plus a not-yet-implemented message. -/
theorem valueset_validate_delegation_amended :
    (∀ (st : Store) (vsurl system code : String) (display : Option String)
      (p : Parameters),
      perform_validate_code st system code none display = .ok p →
      (p.get_boolean "result").getD false = false →
      perform_validate_code_valueset st vsurl system code display = .ok p) ∧
    (∀ (st : Store) (vsurl system code : String) (display : Option String)
      (p : Parameters),
      perform_validate_code st system code none display = .ok p →
      (p.get_boolean "result").getD false = true →
      perform_validate_code_valueset st vsurl system code display =
        .ok (Parameters.with_parameters [Parameter.boolean "result" true,
          Parameter.string "message"
            "Code validation passed (ValueSet expansion not yet implemented)"])) := by
  constructor <;>
    (intro st vsurl system code display p hv hres;
     simp [perform_validate_code_valueset, hv, hres, ok_bind, pure_eq_ok])

/-- C3: when the CodeSystem resolves and the concept exists,
`Subsumes(system, code, code)` answers a single code-kind `outcome`
parameter with value `equivalent`; the store's subsumption relation is left
fully unconstrained (in the witness it even fails), so the outcome is
decided without consulting it. -/
theorem subsumes_self_equivalent :
    ∀ (st : Store) (system code : String) (version : Option String)
      (cs : CodeSystem) (c : Concept),
      st.getCodeSystem system version = .ok (some cs) →
      st.getConcept cs.id code = .ok (some c) →
      perform_subsumes st system code code version =
        .ok (Parameters.with_parameters
          [Parameter.code "outcome" "equivalent"]) := by
  intro st system code version cs c hcs hc
  simp [perform_subsumes, hcs, hc, ok_bind, pure_eq_ok]

/-- C3 witness: on `st1` (whose closure query would fail if consulted),
Subsumes of `a` with itself is `equivalent`. -/
theorem subsumes_self_equivalent_witness :
    perform_subsumes st1 "http://x/cs" "a" "a" none =
      .ok (Parameters.with_parameters
        [Parameter.code "outcome" "equivalent"]) :=
  subsumes_self_equivalent st1 "http://x/cs" "a" none cs0 concept_a rfl rfl

/-- C4 counterexample: over a closure table holding rows in both directions
for the pair (a, b), Subsumes(a, b) yields `subsumes` but the swapped call
also yields `subsumes`, not `subsumed-by`. -/
theorem subsumes_swap_counterexample :
    perform_subsumes st_both "http://x/cs" "a" "b" none =
      .ok (Parameters.with_parameters [Parameter.code "outcome" "subsumes"]) ∧
    perform_subsumes st_both "http://x/cs" "b" "a" none =
      .ok (Parameters.with_parameters [Parameter.code "outcome" "subsumes"]) ∧
    perform_subsumes st_both "http://x/cs" "b" "a" none ≠
      .ok (Parameters.with_parameters
        [Parameter.code "outcome" "subsumed-by"]) := by
  refine ⟨rfl, rfl, fun h => ?_⟩
  exact absurd (congrArg (fun r => match r with
      | Except.ok q => q.get_code "outcome"
      | Except.error _ => none) h) (by decide)

/-- C4 (amended): for distinct codes whose concepts both exist, if
Subsumes(a, b) yields `subsumes` and the closure table holds no reverse row
(b ancestor-of a), then the swapped call yields `subsumed-by`. -/
theorem subsumes_swap_amended :
    ∀ (st : Store) (closure : Nat → String → String → Bool)
      (system a b : String) (version : Option String) (cs : CodeSystem)
      (ca cb : Concept),
      st.checkSubsumption = (fun id x y =>
        Except.ok (check_subsumption_pg closure id x y)) →
      st.getCodeSystem system version = .ok (some cs) →
      st.getConcept cs.id a = .ok (some ca) →
      st.getConcept cs.id b = .ok (some cb) →
      a ≠ b →
      closure cs.id b a = false →
      perform_subsumes st system a b version =
        .ok (Parameters.with_parameters [Parameter.code "outcome" "subsumes"]) →
      perform_subsumes st system b a version =
        .ok (Parameters.with_parameters
          [Parameter.code "outcome" "subsumed-by"]) := by
  intro st closure system a b version cs ca cb hchk hcs hca hcb hne hba hfwd
  have hab : closure cs.id a b = true := by
    by_contra hab
    have hab' : closure cs.id a b = false := by
      cases h : closure cs.id a b
      · rfl
      · exact absurd h hab
    simp [perform_subsumes, hcs, hca, hcb, hchk, check_subsumption_pg, hab',
      hba, hne, ok_bind, pure_eq_ok] at hfwd
    exact absurd (congrArg (fun q => q.get_code "outcome") hfwd) (by decide)
  simp [perform_subsumes, hcs, hca, hcb, hchk, check_subsumption_pg, hab,
    hba, Ne.symm hne, ok_bind, pure_eq_ok]

/-- C4 witness: over the one-row closure relation, Subsumes(b, a) is
`subsumed-by`. -/
theorem subsumes_swap_amended_witness :
    perform_subsumes st_down "http://x/cs" "b" "a" none =
      .ok (Parameters.with_parameters
        [Parameter.code "outcome" "subsumed-by"]) :=
  subsumes_swap_amended st_down closure_down "http://x/cs" "a" "b" none cs0
    concept_a concept_b rfl rfl rfl rfl (by decide) rfl rfl

/-- C5: on a group with source S and target T, the reverse walk driven by
source system T equals the element walk with effective target system S
(coding system S, filter compared against S), and the forward walk driven
by S equals the same element walk with effective system T. -/
theorem translate_reverse_effective_system :
    ∀ (g : Json) (S T source_code : String) (ts : Option String),
      (g.get "source").bind Json.asStr = some S →
      (g.get "target").bind Json.asStr = some T →
      process_group true T source_code ts g =
        process_group_elements S ts source_code g ∧
      process_group false S source_code ts g =
        process_group_elements T ts source_code g := by
  intro g S T source_code ts hS hT
  constructor <;>
    simp [process_group, process_group_elements, process_target_mode_true,
      process_target_mode_false, hS, hT]

/-- C5 witness: the fixture group evaluates both ways. -/
theorem translate_reverse_witness :
    process_group true "http://x/tgt" "c" none group_fixture =
      process_group_elements "http://x/src" none "c" group_fixture ∧
    process_group false "http://x/src" "c" none group_fixture =
      process_group_elements "http://x/tgt" none "c" group_fixture :=
  translate_reverse_effective_system group_fixture "http://x/src"
    "http://x/tgt" "c" none rfl rfl

/-- C6: for a resolvable ValueSet whose content is a JSON object, Expand
succeeds and reports `total` as the filtered count before pagination,
`contains` as skip-offset/take-count of the filtered entries, and an empty
`contains` (with the same `total`) whenever offset is at least the total. -/
theorem expand_total_and_pagination :
    ∀ (st : Store) (url : String) (filter : Option String)
      (offset count : Int) (identifier timestamp : String) (vs : ValueSet)
      (entries : Option (List Json)) (fields : List (String × Json)),
      st.getValueSet url none = .ok (some vs) →
      st.getValueSetExpansion vs.id = .ok entries →
      vs.content = Json.obj fields →
      -2 ^ 63 ≤ offset → offset < 2 ^ 63 →
      ∃ j, perform_expand st url ⟨some url, filter, some offset, some count⟩
          identifier timestamp = .ok j ∧
        (j.get "expansion").bind (fun e => e.get "total") =
          some (.num
            ((apply_expansion_filter filter (entries.getD [])).length : Int)) ∧
        (j.get "expansion").bind (fun e => e.get "contains") =
          some (.arr (((apply_expansion_filter filter (entries.getD [])).drop
            (i64_as_usize offset)).take (i64_as_usize count))) ∧
        (((apply_expansion_filter filter (entries.getD [])).length : Int) ≤
            offset →
          (j.get "expansion").bind (fun e => e.get "contains") =
            some (.arr [])) := by
  intro st url filter offset count identifier timestamp vs entries fields
    hvs hexp hcontent hlo hhi
  refine ⟨(Json.obj fields).insertKey "expansion"
    (expansion_object identifier timestamp
      (apply_expansion_filter filter (entries.getD [])).length
      (i64_as_usize offset)
      (((apply_expansion_filter filter (entries.getD [])).drop
        (i64_as_usize offset)).take (i64_as_usize count))), ?_, ?_, ?_, ?_⟩
  · simp [perform_expand, hvs, hexp, hcontent, ok_bind, pure_eq_ok]
  · rw [json_get_insertKey]
    rfl
  · rw [json_get_insertKey]
    rfl
  · intro hle
    have h0 : (0 : Int) ≤ offset :=
      le_trans (Int.ofNat_nonneg _) hle
    have husz : i64_as_usize offset = offset.toNat := by
      unfold i64_as_usize
      have hmod : offset % 2 ^ 64 = offset := Int.emod_eq_of_lt h0 (by omega)
      rw [hmod]
    have hge : (apply_expansion_filter filter (entries.getD [])).length ≤
        i64_as_usize offset := by
      rw [husz]
      omega
    have hdrop : (apply_expansion_filter filter (entries.getD [])).drop
        (i64_as_usize offset) = [] := List.drop_eq_nil_of_le hge
    rw [json_get_insertKey]
    simp [expansion_object, hdrop, Json.get, List.lookup]

/-- C6 witness: three entries, offset 5 past the end: total stays 3 and the
page is empty. -/
theorem expand_total_and_pagination_witness :
    ∃ j, perform_expand st_vs "http://x/vs"
        ⟨some "http://x/vs", none, some 5, some 2⟩ "id0" "t0" = .ok j ∧
      (j.get "expansion").bind (fun e => e.get "total") =
        some (.num 3) ∧
      (j.get "expansion").bind (fun e => e.get "contains") =
        some (.arr []) := by
  obtain ⟨j, hj, ht, hcont, hb⟩ := expand_total_and_pagination st_vs
    "http://x/vs" none 5 2 "id0" "t0" vs0 (some exp_entries)
    [("resourceType", Json.str "ValueSet")] rfl rfl rfl (by decide) (by decide)
  exact ⟨j, hj, ht, hb (by decide)⟩

/-- C7 counterexample: an envelope carrying "system" as a string-kind value
before a uri-kind value with a different text resolves to the string-kind
text (the reported missing CodeSystem is the string one), not the uri-kind
text the claim predicts for a canonical URL. -/
theorem post_system_precedence_counterexample :
    lookup_post st1 env_dup_system =
      .error (.notFound "CodeSystem 'sys-string' not found") ∧
    lookup_post st1 env_dup_system ≠
      .error (.notFound "CodeSystem 'sys-uri' not found") := by
  refine ⟨rfl, fun h => ?_⟩
  exact absurd (congrArg (fun r => match r with
      | Except.error (AppError.notFound m) => some m
      | _ => none) h) (by decide)

/-- C7 (amended): the POST-shape resolvers of Lookup and Translate try the
string kind first for every argument (canonical URLs included) and use the
alternate kind (uri for URLs, code for codes) only when no string-kind
value resolves. -/
theorem post_resolution_string_first :
    (∀ (st : Store) (env : Parameters) (s c : String),
      env.get_string "system" = some s →
      (env.get_string "code").or (env.get_code "code") = some c →
      lookup_post st env = perform_lookup st s c (env.get_string "version")) ∧
    (∀ (st : Store) (env : Parameters) (u c : String),
      env.get_string "system" = none →
      env.get_uri "system" = some u →
      (env.get_string "code").or (env.get_code "code") = some c →
      lookup_post st env = perform_lookup st u c (env.get_string "version")) ∧
    (∀ (st : Store) (env : Parameters) (s c : String),
      env.get_string "system" = some s →
      (env.get_string "code").or (env.get_code "code") = some c →
      translate_post st env = perform_translate st
        ((env.get_string "url").or (env.get_uri "url")) s c
        (env.get_string "target") ((env.get_boolean "reverse").getD false)) ∧
    (∀ (st : Store) (env : Parameters) (u c : String),
      env.get_string "system" = none →
      env.get_uri "system" = some u →
      (env.get_string "code").or (env.get_code "code") = some c →
      translate_post st env = perform_translate st
        ((env.get_string "url").or (env.get_uri "url")) u c
        (env.get_string "target")
        ((env.get_boolean "reverse").getD false)) := by
  refine ⟨?_, ?_, ?_, ?_⟩
  · intro st env s c hs hc
    have hsys : (env.get_string "system").or (env.get_uri "system") = some s := by
      rw [hs]; rfl
    unfold lookup_post
    rw [hsys, hc]
  · intro st env u c hs hu hc
    have hsys : (env.get_string "system").or (env.get_uri "system") = some u := by
      rw [hs, hu]; rfl
    unfold lookup_post
    rw [hsys, hc]
  · intro st env s c hs hc
    have hsys : (env.get_string "system").or (env.get_uri "system") = some s := by
      rw [hs]; rfl
    unfold translate_post
    rw [hc, hsys]
  · intro st env u c hs hu hc
    have hsys : (env.get_string "system").or (env.get_uri "system") = some u := by
      rw [hs, hu]; rfl
    unfold translate_post
    rw [hc, hsys]

/-- C8 counterexample: a store failure's response carries the stable tag in
its `error` field, but its `message` field is the full Display rendering,
which contains the raw storage-engine detail. -/
theorem store_failure_detail_in_message :
    (AppError.database "connection refused").into_response =
      ⟨500, "Database error", "Database error: connection refused"⟩ ∧
    str_contains
      (AppError.database "connection refused").into_response.message
      "connection refused" = true := by
  exact ⟨rfl, by decide⟩

/-- C8 (amended): a store failure is rendered as status 500 with the stable
detail-free kind tag "Database error" in the `error` field, while the
`message` field is the Display rendering "Database error: " plus the raw
storage-engine detail (the detail is additionally logged). -/
theorem store_failure_response_shape :
    ∀ detail : String,
      (AppError.database detail).into_response =
        ⟨500, "Database error", "Database error: " ++ detail⟩ := by
  intro detail; rfl

/-- C9: each typed accessor of a Parameters envelope returns a value
exactly when the first parameter with the requested name carries a value of
that accessor's kind; an absent name, a valueless parameter, or a value of
any other kind yields `none`. -/
theorem parameters_accessor_kind_exact :
    ∀ (ps : Parameters) (name : String),
      (∀ s, ps.get_string name = some s ↔
        ∃ p, ps.get_parameter name = some p ∧
          p.value = some (.valueString s)) ∧
      (∀ b, ps.get_boolean name = some b ↔
        ∃ p, ps.get_parameter name = some p ∧
          p.value = some (.valueBoolean b)) ∧
      (∀ c, ps.get_code name = some c ↔
        ∃ p, ps.get_parameter name = some p ∧
          p.value = some (.valueCode c)) ∧
      (∀ u, ps.get_uri name = some u ↔
        ∃ p, ps.get_parameter name = some p ∧
          p.value = some (.valueUri u)) := by
  intro ps name
  refine ⟨fun s => ?_, fun b => ?_, fun c => ?_, fun u => ?_⟩ <;>
  · simp only [Parameters.get_string, Parameters.get_boolean,
      Parameters.get_code, Parameters.get_uri]
    cases hp : ps.get_parameter name with
    | none => simp
    | some p =>
      cases hv : p.value with
      | none => simp [hv]
      | some v => cases v <;> simp [hv]

/-- C10: the POST shapes of Expand resolve only url and filter from the
body, fixing offset and count to None, and `perform_expand` then paginates
with the defaults offset 0 and count 100. -/
theorem expand_post_fixed_pagination :
    (∀ (st : Store) (env : Parameters) (identifier timestamp url : String),
      (env.get_string "url").or (env.get_uri "url") = some url →
      expand_post st env identifier timestamp =
        perform_expand st url ⟨some url, env.get_string "filter", none, none⟩
          identifier timestamp) ∧
    (∀ (st : Store) (id : Nat) (env : Parameters)
      (identifier timestamp : String) (vs : ValueSet),
      st.getValueSetById id = .ok (some vs) →
      expand_instance_post st id env identifier timestamp =
        perform_expand st vs.url
          ⟨some vs.url, env.get_string "filter", none, none⟩
          identifier timestamp) ∧
    (∀ (st : Store) (url : String) (filter : Option String)
      (identifier timestamp : String) (vs : ValueSet)
      (entries : Option (List Json)) (fields : List (String × Json)),
      st.getValueSet url none = .ok (some vs) →
      st.getValueSetExpansion vs.id = .ok entries →
      vs.content = Json.obj fields →
      ∃ j, perform_expand st url ⟨some url, filter, none, none⟩
          identifier timestamp = .ok j ∧
        (j.get "expansion").bind (fun e => e.get "offset") =
          some (.num 0) ∧
        (j.get "expansion").bind (fun e => e.get "contains") =
          some (.arr
            ((apply_expansion_filter filter (entries.getD [])).take 100))) := by
  refine ⟨?_, ?_, ?_⟩
  · intro st env identifier timestamp url hurl
    unfold expand_post
    rw [hurl]
  · intro st id env identifier timestamp vs hvs
    unfold expand_instance_post
    rw [hvs, ok_bind]
  · intro st url filter identifier timestamp vs entries fields hvs hexp hcontent
    refine ⟨(Json.obj fields).insertKey "expansion"
      (expansion_object identifier timestamp
        (apply_expansion_filter filter (entries.getD [])).length 0
        ((apply_expansion_filter filter (entries.getD [])).take 100)),
      ?_, ?_, ?_⟩
    · have h0 : i64_as_usize 0 = 0 := by decide
      have h100 : i64_as_usize 100 = 100 := by decide
      simp [perform_expand, hvs, hexp, hcontent, ok_bind, pure_eq_ok,
        h0, h100]
    · rw [json_get_insertKey]
      rfl
    · rw [json_get_insertKey]
      rfl

end TermSquid
